import Mathlib

/-!
Verification of the client-side interactivity script of the SonicWall Amazon
storefront landing page (`script.ts`).  The script is a flat collection of
`init*` functions wiring DOM queries to event listeners; state is a handful of
module-level counters and flags.  We shallowly embed each subsystem the claims
touch: numbers used by the script (touch coordinates, prices, delays) are
modelled as exact rationals or integers, DOM element state as explicit records,
and the init-time behaviour of each `init*` function as a pure function from
its query results to a list of emitted effects.
-/

set_option maxHeartbeats 1000000

-- ===========================================================================
-- Generic helpers
-- ===========================================================================

/-- Maps `f` over `l` together with each element's index,
mirroring the `(element, index)` callbacks of JavaScript `forEach`/`map`. -/
def idxMap (l : List α) (f : ℕ → α → β) : List β :=
  (List.range l.length).zip l |>.map fun p => f p.1 p.2

theorem idxMap_length (l : List α) (f : ℕ → α → β) :
    (idxMap l f).length = l.length := by
  simp [idxMap, List.length_zip]

theorem idxMap_getElem (l : List α) (f : ℕ → α → β) (i : ℕ) (h : i < (idxMap l f).length) :
    (idxMap l f)[i] = f i (l.get ⟨i, by simpa [idxMap_length] using h⟩) := by
  simp [idxMap]

theorem idxMap_nil (f : ℕ → α → β) : idxMap [] f = [] := rfl

-- ===========================================================================
-- TESTIMONIAL CAROUSEL (script.ts, initTestimonialCarousel)
-- ===========================================================================

/-- State of one carousel navigation dot: presence of the `dot--active` class,
the `aria-selected` attribute and the `tabindex` attribute. -/
structure DotState where
  active : Bool
  ariaSelected : String
  tabindex : String
deriving DecidableEq, Repr

/-- Carousel state: the module-level `currentTestimonialIndex` together with
the state of the `.dot` elements. -/
structure CarouselState where
  index : ℕ
  dots : List DotState
deriving DecidableEq, Repr

/-- Model of `updateActiveDot(index)`: for every dot `i`, toggle the `dot--active`
class on `i === index`, set `aria-selected` and `tabindex` accordingly. -/
def updateActiveDot (dots : List DotState) (k : ℕ) : List DotState :=
  idxMap dots fun i _ =>
    { active := decide (i = k)
      ariaSelected := if i = k then "true" else "false"
      tabindex := if i = k then "0" else "-1" }

/-- Model of `nextTestimonial()`: `currentTestimonialIndex = (currentTestimonialIndex + 1) % dots.length`
followed by `updateActiveDot`. -/
def nextTestimonial (s : CarouselState) : CarouselState :=
  let i := (s.index + 1) % s.dots.length
  { index := i, dots := updateActiveDot s.dots i }

/-- Model of `prevTestimonial()`: `currentTestimonialIndex = (currentTestimonialIndex - 1 + dots.length) % dots.length`
followed by `updateActiveDot`.  The index is a natural number in `[0, n)` so
`index - 1 + n` is the natural number `index + n - 1`. -/
def prevTestimonial (s : CarouselState) : CarouselState :=
  let i := (s.index + s.dots.length - 1) % s.dots.length
  { index := i, dots := updateActiveDot s.dots i }

theorem updateActiveDot_length (dots : List DotState) (k : ℕ) :
    (updateActiveDot dots k).length = dots.length := by
  simp [updateActiveDot, idxMap_length]

theorem updateActiveDot_active (dots : List DotState) (k j : ℕ)
    (h : j < (updateActiveDot dots k).length) :
    ((updateActiveDot dots k)[j].active = true) ↔ j = k := by
  simp only [updateActiveDot] at h ⊢
  rw [idxMap_getElem]
  simp

-- ===========================================================================
-- TOUCH SWIPE (script.ts, handleSwipe)
-- ===========================================================================

/-- The constant `TOUCH_SWIPE_THRESHOLD = 75`. -/
def TOUCH_SWIPE_THRESHOLD : ℚ := 75

/-- Which carousel function a touch pair causes `handleSwipe` to call. -/
inductive SwipeCall where
  | prevT : SwipeCall
  | nextT : SwipeCall
  | noneCall : SwipeCall
deriving DecidableEq, Repr

/-- The branch taken by `handleSwipe`: `swipeDistance = touchEndX - touchStartX`;
if `Math.abs(swipeDistance) > TOUCH_SWIPE_THRESHOLD` then swipe right
(`swipeDistance > 0`) calls `prevTestimonial`, otherwise `nextTestimonial`;
below or at the threshold nothing is called. -/
def swipeCall (touchStartX touchEndX : ℚ) : SwipeCall :=
  let swipeDistance := touchEndX - touchStartX
  if |swipeDistance| > TOUCH_SWIPE_THRESHOLD then
    if swipeDistance > 0 then SwipeCall.prevT else SwipeCall.nextT
  else SwipeCall.noneCall

/-- Model of `handleSwipe()` acting on the carousel state. -/
def handleSwipe (touchStartX touchEndX : ℚ) (s : CarouselState) : CarouselState :=
  match swipeCall touchStartX touchEndX with
  | SwipeCall.prevT => prevTestimonial s
  | SwipeCall.nextT => nextTestimonial s
  | SwipeCall.noneCall => s

-- ===========================================================================
-- STICKY HEADER (script.ts, applySticky / removeSticky)
-- ===========================================================================

/-- State touched by `applySticky`/`removeSticky`: the `isSticky` flag, the
`brand-header--sticky` class, the inline style properties set on the brand
header, and `document.body.style.paddingTop`. -/
structure HeaderState where
  isSticky : Bool
  hasStickyClass : Bool
  position : String
  top : String
  left : String
  width : String
  zIndex : String
  boxShadow : String
  bodyPaddingTop : String
deriving DecidableEq, Repr

/-- Model of `applySticky()`; `brandHeaderHeight` is the cached `offsetHeight`. -/
def applySticky (brandHeaderHeight : ℤ) (s : HeaderState) : HeaderState :=
  if s.isSticky then s
  else
    { isSticky := true
      hasStickyClass := true
      position := "fixed"
      top := "0"
      left := "0"
      width := "100%"
      zIndex := "999"
      boxShadow := "0 2px 8px rgba(0,0,0,0.15)"
      bodyPaddingTop := toString brandHeaderHeight ++ "px" }

/-- Model of `removeSticky()`. -/
def removeSticky (s : HeaderState) : HeaderState :=
  if !s.isSticky then s
  else
    { isSticky := false
      hasStickyClass := false
      position := ""
      top := ""
      left := ""
      width := ""
      zIndex := ""
      boxShadow := ""
      bodyPaddingTop := "0" }

-- ===========================================================================
-- Claim C2: swipe threshold
-- ===========================================================================

/-- Claim C2: For every touch pair with start x-coordinate `x0` and end
x-coordinate `x1`, `handleSwipe` calls `prevTestimonial` iff `x1 - x0 > 75`,
calls `nextTestimonial` iff `x0 - x1 > 75`, and leaves the carousel state
(in particular the current testimonial index) unchanged when
`|x1 - x0| ≤ 75`, so a swipe of exactly the threshold distance does nothing. -/
theorem swipe_threshold_correct (x0 x1 : ℚ) (s : CarouselState) :
    (swipeCall x0 x1 = SwipeCall.prevT ↔ x1 - x0 > 75) ∧
    (swipeCall x0 x1 = SwipeCall.nextT ↔ x0 - x1 > 75) ∧
    (|x1 - x0| ≤ 75 → handleSwipe x0 x1 s = s) := by
  by_cases hp : x1 - x0 > 75
  · have habs : |x1 - x0| > 75 := lt_of_lt_of_le hp (le_abs_self _)
    have hpos : x1 - x0 > 0 := by linarith
    have hc : swipeCall x0 x1 = SwipeCall.prevT := by
      simp only [swipeCall, TOUCH_SWIPE_THRESHOLD]
      rw [if_pos habs, if_pos hpos]
    refine ⟨⟨fun _ => hp, fun _ => hc⟩, ⟨?_, fun hn => absurd hn (by linarith)⟩,
      fun hle => absurd habs (not_lt.mpr hle)⟩
    intro h; rw [hc] at h; cases h
  · by_cases hn : x0 - x1 > 75
    · have habs : |x1 - x0| > 75 :=
        calc (75 : ℚ) < -(x1 - x0) := by linarith
        _ ≤ |x1 - x0| := neg_le_abs _
      have hnonpos : ¬(x1 - x0 > 0) := by linarith
      have hc : swipeCall x0 x1 = SwipeCall.nextT := by
        simp only [swipeCall, TOUCH_SWIPE_THRESHOLD]
        rw [if_pos habs, if_neg hnonpos]
      refine ⟨⟨fun h => ?_, fun h => absurd h (by linarith)⟩, ⟨fun _ => hn, fun _ => hc⟩,
        fun hle => absurd habs (not_lt.mpr hle)⟩
      rw [hc] at h; cases h
    · have habs : ¬(|x1 - x0| > 75) := by
        rw [not_lt, abs_le]
        constructor <;> linarith
      have hc : swipeCall x0 x1 = SwipeCall.noneCall := by
        simp only [swipeCall, TOUCH_SWIPE_THRESHOLD]
        rw [if_neg habs]
      refine ⟨⟨fun h => ?_, fun h => absurd h hp⟩, ⟨fun h => ?_, fun h => absurd h hn⟩, fun _ => ?_⟩
      · rw [hc] at h; cases h
      · rw [hc] at h; cases h
      · simp only [handleSwipe, hc]

/-- Witness for C2 at concrete inputs: a 100px rightward swipe calls
`prevTestimonial`, and a 20px swipe (below the threshold) leaves the state
unchanged. -/
theorem swipe_threshold_correct_witness :
    swipeCall 0 100 = SwipeCall.prevT ∧
    handleSwipe 0 20 ⟨1, [⟨false, "false", "-1"⟩, ⟨true, "true", "0"⟩]⟩ =
      ⟨1, [⟨false, "false", "-1"⟩, ⟨true, "true", "0"⟩]⟩ := by
  constructor
  · exact (swipe_threshold_correct 0 100 ⟨0, []⟩).1.mpr (by norm_num)
  · exact (swipe_threshold_correct 0 20 _).2.2 (by norm_num)

-- ===========================================================================
-- Claim C8: testimonial index stays in range; next/prev are inverses
-- ===========================================================================

/-- Claim C8: For every number of dots `n > 0` and every current index
`i ∈ [0, n)`: `nextTestimonial` sets the index to `(i + 1) % n`,
`prevTestimonial` to `(i - 1 + n) % n`, both results are again in `[0, n)`,
exactly the dot at the new current index carries the `dot--active` class, and
`prevTestimonial` after `nextTestimonial` returns the index to `i`. -/
theorem testimonial_index_correct (s : CarouselState)
    (hn : 0 < s.dots.length) (hi : s.index < s.dots.length) :
    (nextTestimonial s).index = (s.index + 1) % s.dots.length ∧
    (prevTestimonial s).index = (s.index + s.dots.length - 1) % s.dots.length ∧
    (nextTestimonial s).index < s.dots.length ∧
    (prevTestimonial s).index < s.dots.length ∧
    (∀ j, (h : j < (nextTestimonial s).dots.length) →
      (((nextTestimonial s).dots[j].active = true) ↔ j = (nextTestimonial s).index)) ∧
    (∀ j, (h : j < (prevTestimonial s).dots.length) →
      (((prevTestimonial s).dots[j].active = true) ↔ j = (prevTestimonial s).index)) ∧
    (prevTestimonial (nextTestimonial s)).index = s.index := by
  refine ⟨rfl, rfl, Nat.mod_lt _ hn, Nat.mod_lt _ hn, ?_, ?_, ?_⟩
  · intro j h
    exact updateActiveDot_active s.dots _ j (by simpa [nextTestimonial] using h)
  · intro j h
    exact updateActiveDot_active s.dots _ j (by simpa [prevTestimonial] using h)
  · show ((s.index + 1) % s.dots.length + (updateActiveDot s.dots _).length - 1)
        % (updateActiveDot s.dots _).length = s.index
    rw [updateActiveDot_length]
    rcases Nat.lt_or_ge (s.index + 1) s.dots.length with hlt | hge
    · rw [Nat.mod_eq_of_lt hlt]
      have : s.index + 1 + s.dots.length - 1 = s.index + s.dots.length := by omega
      rw [this, Nat.add_mod_right, Nat.mod_eq_of_lt hi]
    · have heq : s.index + 1 = s.dots.length := by omega
      rw [heq, Nat.mod_self]
      rw [Nat.mod_eq_of_lt (by omega)]
      omega

/-- Witness for C8: a concrete 3-dot carousel at index 2. -/
theorem testimonial_index_correct_witness :
    (0 < (3 : ℕ)) ∧
    (nextTestimonial ⟨2, [⟨false, "false", "-1"⟩, ⟨false, "false", "-1"⟩, ⟨true, "true", "0"⟩]⟩).index = 0 := by
  refine ⟨by decide, ?_⟩
  have h := testimonial_index_correct
    ⟨2, [⟨false, "false", "-1"⟩, ⟨false, "false", "-1"⟩, ⟨true, "true", "0"⟩]⟩
    (by decide) (by decide)
  rw [h.1]
  rfl

-- ===========================================================================
-- Claim C9: sticky header round trip
-- ===========================================================================

/-- Claim C9: `applySticky` is a no-op when `isSticky` is already true and
`removeSticky` a no-op when it is false; and for every pre-sticky style state,
`removeSticky` after `applySticky` removes the `brand-header--sticky` class and
restores every inline style property `applySticky` set (position, top, left,
width, zIndex, boxShadow) to the empty string — except `document.body`'s
`paddingTop`, which `removeSticky` sets to `"0"` rather than its original
value. -/
theorem sticky_roundtrip (h : ℤ) (s : HeaderState) :
    (s.isSticky = true → applySticky h s = s) ∧
    (s.isSticky = false → removeSticky s = s) ∧
    (s.isSticky = false →
      removeSticky (applySticky h s) =
        { isSticky := false, hasStickyClass := false, position := "", top := "",
          left := "", width := "", zIndex := "", boxShadow := "", bodyPaddingTop := "0" }) := by
  refine ⟨?_, ?_, ?_⟩
  · intro hs; simp [applySticky, hs]
  · intro hs; simp [removeSticky, hs]
  · intro hs
    simp [applySticky, removeSticky, hs]

/-- Witness for C9: concrete non-sticky state with pre-existing inline styles. -/
theorem sticky_roundtrip_witness :
    removeSticky (applySticky 84
      ⟨false, false, "absolute", "10px", "5px", "50%", "7", "none", "12px"⟩) =
      ⟨false, false, "", "", "", "", "", "", "0"⟩ := by
  exact (sticky_roundtrip 84 _).2.2 rfl

-- ===========================================================================
-- TAB NAVIGATION (script.ts, activateTab inside initTabNavigation)
-- ===========================================================================

/-- State of one `.brand-nav__tab`: presence of the `brand-nav__tab--active`
class, the `aria-selected` attribute and the `tabindex` attribute. -/
structure TabState where
  active : Bool
  ariaSelected : String
  tabindex : String
deriving DecidableEq, Repr

/-- Body of the `tabs.forEach` clearing pass of `activateTab`: remove the
active class, set `aria-selected="false"` and `tabindex="-1"`. -/
def clearTab (t : TabState) : TabState :=
  { t with active := false, ariaSelected := "false", tabindex := "-1" }

/-- Model of `activateTab(tab)` restricted to the tab list state: clear every tab,
then add the active class to the clicked tab `k` and set its
`aria-selected="true"` and `tabindex="0"`.  (The subsequent
`smoothScrollTo` call does not touch the tab states.) -/
def activateTab (tabs : List TabState) (k : ℕ) : List TabState :=
  let cleared := tabs.map clearTab
  match cleared.get? k with
  | some t => cleared.set k { t with active := true, ariaSelected := "true", tabindex := "0" }
  | none => cleared

-- ===========================================================================
-- Claim C7: tab activation is exclusive
-- ===========================================================================

/-- Claim C7: For every tab `k` in the tab list, after `activateTab k` runs,
`k` is the unique tab carrying the `brand-nav__tab--active` class, with
`aria-selected="true"` and `tabindex="0"`, while every other tab has the
class removed, `aria-selected="false"` and `tabindex="-1"` — so at most one
tab is active after every tab-activation step. -/
theorem activateTab_exclusive (tabs : List TabState) (k : ℕ) (hk : k < tabs.length) :
    (activateTab tabs k).length = tabs.length ∧
    (∀ j, (h : j < (activateTab tabs k).length) →
      (((activateTab tabs k)[j].active = true) ↔ j = k) ∧
      (j = k → (activateTab tabs k)[j].ariaSelected = "true" ∧
               (activateTab tabs k)[j].tabindex = "0") ∧
      (j ≠ k → (activateTab tabs k)[j].ariaSelected = "false" ∧
               (activateTab tabs k)[j].tabindex = "-1")) := by
  have hk' : k < (tabs.map clearTab).length := by simpa using hk
  have hact : activateTab tabs k =
      (tabs.map clearTab).set k ⟨true, "true", "0"⟩ := by
    simp only [activateTab]
    rw [List.get?_eq_get hk']
  have hlen : (activateTab tabs k).length = tabs.length := by
    rw [hact]; simp
  refine ⟨hlen, ?_⟩
  intro j h
  have hj : j < tabs.length := hlen ▸ h
  by_cases hjk : j = k
  · subst hjk
    have hje : (activateTab tabs j)[j] = (⟨true, "true", "0"⟩ : TabState) := by
      simp only [hact]
      exact List.getElem_set_self (by simpa using hk)
    refine ⟨by simp [hje], fun _ => by simp [hje], fun hne => absurd rfl hne⟩
  · have hje : (activateTab tabs k)[j] = clearTab (tabs.get ⟨j, hj⟩) := by
      simp only [hact]
      rw [List.getElem_set_ne (fun heq => hjk heq.symm)]
      simp
    refine ⟨by simp [hje, clearTab, hjk], fun heq => absurd heq hjk,
      fun _ => by simp [hje, clearTab]⟩

/-- Witness for C7: activating tab 1 in a concrete 3-tab list leaves exactly
tab 1 active. -/
theorem activateTab_exclusive_witness :
    ((activateTab [⟨true, "true", "0"⟩, ⟨false, "false", "-1"⟩, ⟨false, "false", "-1"⟩] 1).get
      ⟨1, by decide⟩).active = true := by
  have h := activateTab_exclusive
    [⟨true, "true", "0"⟩, ⟨false, "false", "-1"⟩, ⟨false, "false", "-1"⟩] 1 (by decide)
  exact ((h.2 1 (by rw [h.1]; decide)).1).mpr rfl

-- ===========================================================================
-- GRID COLUMN COUNT (script.ts, initProductToggles / initScrollAnimations)
-- ===========================================================================

/-- JavaScript `String.prototype.split(sep)` for a single-character separator,
on the character list of a (non-empty) string. -/
def splitOnChar (sep : Char) : List Char → List (List Char)
  | [] => [[]]
  | c :: rest =>
      if c = sep then [] :: splitOnChar sep rest
      else
        match splitOnChar sep rest with
        | [] => [[c]]
        | g :: gs => (c :: g) :: gs

/-- Model of `colString ? colString.split(' ').length : dflt` — the number of grid
columns read from a computed `gridTemplateColumns` string, falling back to
`dflt` when the string is empty (empty string is falsy in JavaScript). -/
def jsGridCols (colString : String) (dflt : ℕ) : ℕ :=
  if colString = "" then dflt else (splitOnChar ' ' colString.toList).length

theorem splitOnChar_ne_nil (sep : Char) (cs : List Char) : splitOnChar sep cs ≠ [] := by
  induction cs with
  | nil => simp [splitOnChar]
  | cons c rest ih =>
      by_cases hc : c = sep
      · simp [splitOnChar, hc]
      · simp only [splitOnChar, if_neg hc]
        cases hr : splitOnChar sep rest with
        | nil => simp
        | cons g gs => simp

theorem jsGridCols_pos (colString : String) (dflt : ℕ) (hd : 0 < dflt) :
    0 < jsGridCols colString dflt := by
  unfold jsGridCols
  split_ifs with h
  · exact hd
  · exact List.length_pos.mpr (splitOnChar_ne_nil _ _)

/-- The constant `PRODUCT_STAGGER_DELAY = 100` (milliseconds per column). -/
def PRODUCT_STAGGER_DELAY : ℤ := 100

/-- Stagger delay of the card at `cardIndex` during the product-toggle expand:
`columnIndex = cardIndex % gridCols` and the `setTimeout` delay is
`columnIndex * PRODUCT_STAGGER_DELAY`, with `gridCols` read from the parent's
computed `gridTemplateColumns` and defaulting to 5. -/
def toggleCardDelay (colString : String) (cardIndex : ℕ) : ℤ :=
  let gridCols := jsGridCols colString 5
  let columnIndex := cardIndex % gridCols
  (columnIndex : ℤ) * PRODUCT_STAGGER_DELAY

/-- The `transitionDelay` (in seconds) assigned by the scroll-animation stagger
pass to the visible sibling at `siblingIndex` of a recognised grid parent:
`columnIndex * 0.08` with `gridCols` defaulting to 3. -/
def scrollTransitionDelay (colString : String) (siblingIndex : ℕ) : ℚ :=
  let gridCols := jsGridCols colString 3
  let columnIndex := siblingIndex % gridCols
  (columnIndex : ℚ) * (8 / 100)

-- ===========================================================================
-- PRODUCT TOGGLE (script.ts, handleToggle inside initProductToggles)
-- ===========================================================================

/-- Inline state of one `.product-card--gen7` card. -/
structure CardState where
  display : String
  opacity : String
  transform : String
  fadeInUp : Bool
  visible : Bool
deriving DecidableEq, Repr

/-- The callbacks `handleToggle` passes to `setTimeout`, as data. -/
inductive TimerAction where
  | showCard (i : ℕ) : TimerAction
  | finishExpand : TimerAction
  | hideCard (i : ℕ) : TimerAction
  | finishCollapse : TimerAction
deriving DecidableEq, Repr

/-- State of one product toggle: the closure flags `isExpanded`/`isAnimating`,
the button's attributes, the card states, and the timers scheduled so far
(delay in milliseconds paired with the scheduled callback). -/
structure ToggleState where
  isExpanded : Bool
  isAnimating : Bool
  ariaExpanded : String
  btnDisabled : Bool
  btnText : String
  cards : List CardState
  timers : List (ℤ × TimerAction)
deriving DecidableEq, Repr

/-- Model of `handleToggle`: returns immediately when `isAnimating`; otherwise flips
`isExpanded`, updates `aria-expanded`, disables the button and either expands
(display all cards, schedule the grid-aware staggered reveals and the
re-enable timer) or collapses (schedule the reverse-stagger hides and the
re-enable timer).  `colString` is the parent's computed
`gridTemplateColumns` at expand time. -/
def handleToggle (colString : String) (s : ToggleState) : ToggleState :=
  if s.isAnimating then s
  else
    let expanded := !s.isExpanded
    let s2 : ToggleState :=
      { s with isAnimating := true
               isExpanded := expanded
               ariaExpanded := if expanded then "true" else "false"
               btnDisabled := true }
    if expanded then
      let cards2 := s2.cards.map fun c => { c with display := "block" }
      let gridCols := jsGridCols colString 5
      let showTimers := idxMap cards2 fun i _ => (toggleCardDelay colString i, TimerAction.showCard i)
      let maxDelay : ℤ := ((gridCols : ℤ) - 1) * PRODUCT_STAGGER_DELAY + 400
      { s2 with cards := cards2
                btnText := "Show fewer products"
                timers := s2.timers ++ showTimers ++ [(maxDelay, TimerAction.finishExpand)] }
    else
      let totalCards : ℤ := s2.cards.length
      let lastCardDelay : ℤ := (totalCards - 1) * 40
      let hideTimers := idxMap s2.cards fun i _ => ((i : ℤ) * 40, TimerAction.hideCard i)
      let hideDelay : ℤ := max (lastCardDelay + 300) 500
      { s2 with btnText := "See more products"
                timers := s2.timers ++ hideTimers ++ [(hideDelay, TimerAction.finishCollapse)] }

-- ===========================================================================
-- Claim C5: the isAnimating flag guards re-entrant triggers
-- ===========================================================================

/-- Claim C5: Whenever an expand or collapse animation is in progress
(`isAnimating` is true), an invocation of `handleToggle` returns immediately
and changes nothing: no field of the toggle state changes, `isExpanded` stays
as it was, and no timer is scheduled. -/
theorem isAnimating_guard (colString : String) (s : ToggleState)
    (h : s.isAnimating = true) : handleToggle colString s = s := by
  simp [handleToggle, h]

/-- Witness for C5: a concrete mid-animation state is left untouched. -/
theorem isAnimating_guard_witness :
    handleToggle "218px 218px"
      ⟨true, true, "true", true, "Show fewer products",
        [⟨"block", "", "", true, true⟩], [(100, TimerAction.showCard 0)]⟩ =
      ⟨true, true, "true", true, "Show fewer products",
        [⟨"block", "", "", true, true⟩], [(100, TimerAction.showCard 0)]⟩ :=
  isAnimating_guard "218px 218px" _ rfl

-- ===========================================================================
-- Claim C3: grid-aware stagger delays
-- ===========================================================================

/-- Claim C3: For every element at index `i` in a grid with `g` columns (`g`
read from `gridTemplateColumns`, defaulting to 5 in the product-toggle expand
and 3 in scroll animations when the computed string is empty), the applied
stagger delay equals `(i % g)` times the stagger constant — 100 ms per column
for the product toggle and 0.08 s per column for the scroll-animation
`transitionDelay` — so the delay depends only on the column index, not on the
total index.  In particular, in the expand branch of `handleToggle` the timer
scheduled for card `i` carries exactly this delay. -/
theorem stagger_delay_correct (colString : String) (i : ℕ) (s : ToggleState)
    (hanim : s.isAnimating = false) (hexp : s.isExpanded = false) :
    toggleCardDelay colString i = ((i % jsGridCols colString 5 : ℕ) : ℤ) * 100 ∧
    scrollTransitionDelay colString i = ((i % jsGridCols colString 3 : ℕ) : ℚ) * (8 / 100) ∧
    (colString = "" → jsGridCols colString 5 = 5 ∧ jsGridCols colString 3 = 3) ∧
    toggleCardDelay colString (i + jsGridCols colString 5) = toggleCardDelay colString i ∧
    scrollTransitionDelay colString (i + jsGridCols colString 3) = scrollTransitionDelay colString i ∧
    (∀ j, j < s.cards.length →
      (handleToggle colString s).timers[s.timers.length + j]? =
        some (toggleCardDelay colString j, TimerAction.showCard j)) := by
  refine ⟨rfl, rfl, fun h => by simp [jsGridCols, h], ?_, ?_, ?_⟩
  · simp only [toggleCardDelay]
    rw [Nat.add_mod_right]
  · simp only [scrollTransitionDelay]
    rw [Nat.add_mod_right]
  · intro j hj
    have htimers : (handleToggle colString s).timers =
        s.timers ++
        (idxMap (s.cards.map fun c => { c with display := "block" })
          fun k _ => (toggleCardDelay colString k, TimerAction.showCard k)) ++
        [(((jsGridCols colString 5 : ℤ) - 1) * PRODUCT_STAGGER_DELAY + 400,
          TimerAction.finishExpand)] := by
      simp [handleToggle, hanim, hexp]
    have hlen : (idxMap (s.cards.map fun c => { c with display := "block" })
        fun k _ => (toggleCardDelay colString k, TimerAction.showCard k)).length
        = s.cards.length := by
      rw [idxMap_length]; simp
    rw [htimers]
    rw [List.getElem?_append_left (by simp only [List.length_append, hlen]; omega)]
    rw [List.getElem?_append_right (by omega)]
    rw [Nat.add_sub_cancel_left]
    rw [List.getElem?_eq_getElem (by rw [hlen]; exact hj)]
    rw [idxMap_getElem]

/-- Witness for C3 at a concrete two-column grid string and at the empty
computed string (defaults). -/
theorem stagger_delay_correct_witness :
    toggleCardDelay "218px 218px" 3 = ((3 % 2 : ℕ) : ℤ) * 100 ∧
    scrollTransitionDelay "" 4 = ((4 % 3 : ℕ) : ℚ) * (8 / 100) := by
  have h1 := stagger_delay_correct "218px 218px" 3
    ⟨false, false, "false", false, "See more products", [], []⟩ rfl rfl
  have h2 := stagger_delay_correct "" 4
    ⟨false, false, "false", false, "See more products", [], []⟩ rfl rfl
  refine ⟨?_, h2.2.1⟩
  rw [h1.1]
  rfl

-- ===========================================================================
-- CART COUNTER (script.ts, initCartCounter)
-- ===========================================================================

/-- Numeric value of a list of decimal digit characters. -/
def natOfDigits (ds : List Char) : ℕ :=
  ds.foldl (fun acc c => acc * 10 + (c.toNat - '0'.toNat)) 0

/-- JavaScript `parseInt(s, 10)`: skip leading whitespace, read an optional
sign and then the longest prefix of decimal digits; `none` models `NaN`
(no digits found). -/
def jsParseInt10 (s : String) : Option ℤ :=
  let cs := s.toList.dropWhile Char.isWhitespace
  let signed : ℤ × List Char :=
    match cs with
    | '-' :: r => (-1, r)
    | '+' :: r => (1, r)
    | _ => (1, cs)
  let ds := signed.2.takeWhile Char.isDigit
  if ds.isEmpty then none
  else some (signed.1 * (natOfDigits ds : ℤ))

/-- State of the cart badge: the closure variable `currentCount` and the
badge's `textContent`. -/
structure CartState where
  count : ℤ
  text : String
deriving DecidableEq, Repr

/-- Model of `parseInt(cartCount.textContent ?? '0', 10) || 0`: the initial counter,
defaulting to 0 when the text is missing or not a number (`NaN || 0` is `0`,
and a parsed `0` is falsy so `|| 0` leaves it at `0` as well). -/
def initCartCount (badgeText : Option String) : ℤ :=
  match jsParseInt10 (badgeText.getD "0") with
  | some v => v
  | none => 0

/-- The badge state when `initCartCounter` has run. -/
def cartInit (badgeText : Option String) : CartState :=
  { count := initCartCount badgeText, text := badgeText.getD "" }

/-- The click handler of an add-to-cart option button:
`currentCount++; cartCount.textContent = String(currentCount)`. -/
def cartClick (s : CartState) : CartState :=
  { count := s.count + 1, text := toString (s.count + 1) }

/-- Badge state after a sequence of `k` clicks on add-to-cart buttons. -/
def cartAfter (badgeText : Option String) (k : ℕ) : CartState :=
  cartClick^[k] (cartInit badgeText)

theorem cartAfter_succ (t : Option String) (n : ℕ) :
    cartAfter t (n + 1) = cartClick (cartAfter t n) := by
  simp [cartAfter, Function.iterate_succ_apply']

theorem cartAfter_count (t : Option String) (k : ℕ) :
    (cartAfter t k).count = initCartCount t + k := by
  induction k with
  | zero => simp [cartAfter, cartInit]
  | succ n ih =>
      rw [cartAfter_succ]
      simp only [cartClick]
      rw [ih]
      push_cast
      ring

-- ===========================================================================
-- Claim C10: the cart count only ever increases, by exactly one per click
-- ===========================================================================

/-- Claim C10: The counter is initialized by parsing the cart badge's text
(defaulting to 0 when the text is missing or not a number); every click on an
add-to-cart option button increments the internal count by exactly 1 and
writes it to the badge text; so across every sequence of clicks the displayed
count equals the initial count plus the number of clicks, and the count is
monotonically nondecreasing. -/
theorem cart_count_monotonic (t : Option String) (k : ℕ) :
    (cartAfter t k).count = initCartCount t + k ∧
    (cartAfter t (k + 1)).count = (cartAfter t k).count + 1 ∧
    (1 ≤ k → (cartAfter t k).text = toString (initCartCount t + k)) ∧
    (∀ k', k ≤ k' → (cartAfter t k).count ≤ (cartAfter t k').count) ∧
    initCartCount none = 0 ∧
    (jsParseInt10 (t.getD "0") = none → initCartCount t = 0) := by
  refine ⟨cartAfter_count t k, ?_, ?_, ?_, rfl, ?_⟩
  · rw [cartAfter_succ]
    simp [cartClick]
  · intro hk
    obtain ⟨j, rfl⟩ : ∃ j, k = j + 1 := ⟨k - 1, by omega⟩
    rw [cartAfter_succ]
    simp only [cartClick]
    rw [cartAfter_count]
    refine congrArg toString ?_
    push_cast
    ring
  · intro k' hk'
    rw [cartAfter_count, cartAfter_count]
    have : (k : ℤ) ≤ (k' : ℤ) := by exact_mod_cast hk'
    omega
  · intro hnan
    simp [initCartCount, hnan]

/-- Witness for C10: badge initially showing "3", two clicks, then three
more. -/
theorem cart_count_monotonic_witness :
    (1 ≤ (2 : ℕ)) ∧
    (cartAfter (some "3") 2).text = toString (initCartCount (some "3") + (2 : ℕ)) ∧
    (cartAfter (some "3") 2).count ≤ (cartAfter (some "3") 5).count :=
  ⟨by decide,
   (cart_count_monotonic (some "3") 2).2.2.1 (by decide),
   (cart_count_monotonic (some "3") 2).2.2.2.1 5 (by decide)⟩

-- ===========================================================================
-- FREQUENTLY BOUGHT TOGETHER (script.ts, initFrequentlyBoughtTogether)
-- ===========================================================================

/-- Group 1 of the first match of the regex `/\$([0-9,]+\.?\d*)/` in a
character list, or `none` when the regex does not match: the first `'$'`
followed by at least one digit-or-comma starts the match; the group is the
maximal run of digits and commas, then an optional `'.'` followed by the
maximal run of digits.  A failed attempt resumes searching at the next
character, exactly like the regex engine. -/
def fbtMatch : List Char → Option (List Char)
  | [] => none
  | '$' :: rest =>
      let run := rest.takeWhile fun c => c.isDigit || c = ','
      if run.isEmpty then fbtMatch rest
      else
        match rest.drop run.length with
        | '.' :: r => some (run ++ '.' :: r.takeWhile Char.isDigit)
        | _ => some run
  | _ :: rest => fbtMatch rest

/-- Model of `String.prototype.replace(',', '')` with a string pattern: remove only the
first comma. -/
def removeFirstComma : List Char → List Char
  | [] => []
  | ',' :: r => r
  | c :: r => c :: removeFirstComma r

/-- JavaScript `parseFloat` restricted to the alphabet producible by the FBT
price regex after comma removal (digits, `'.'`, `','`): the longest prefix of
the form `digits [. digits]` is parsed as an exact rational; `none` models
`NaN` (no leading digit and no leading `.digit`). -/
def jsParseFloat (s : String) : Option ℚ :=
  let cs := s.toList
  let intDigits := cs.takeWhile Char.isDigit
  let rest := cs.drop intDigits.length
  let fracDigits : List Char :=
    match rest with
    | '.' :: r => r.takeWhile Char.isDigit
    | _ => []
  if intDigits.isEmpty ∧ fracDigits.isEmpty then none
  else some ((natOfDigits intDigits : ℚ) + (natOfDigits fracDigits : ℚ) / (10 : ℚ) ^ fracDigits.length)

/-- The price pushed for one checkbox:
`match ? parseFloat(match[1].replace(',', '')) : 0`; `none` models `NaN`. -/
def extractPrice (label : String) : Option ℚ :=
  match fbtMatch label.toList with
  | none => some 0
  | some g => jsParseFloat (String.mk (removeFirstComma g))

/-- IEEE-style addition on the `NaN`-extended rationals: `NaN` propagates. -/
def jsAdd : Option ℚ → Option ℚ → Option ℚ
  | some a, some b => some (a + b)
  | _, _ => none

/-- Model of `q.toFixed(2)` for `q ≥ 0`: the integer `n` closest to `q * 100` (ties
pick the larger `n`), rendered as `intPart.2-digit-fraction`. -/
def toFixed2Nonneg (q : ℚ) : String :=
  let n : ℤ := ⌊q * 100 + 1 / 2⌋
  let np := n.toNat
  toString (np / 100) ++ "." ++ (if np % 100 < 10 then "0" ++ toString (np % 100) else toString (np % 100))

/-- Model of `total.toFixed(2)` on the `NaN`-extended rationals, per the ECMAScript
`toFixed` algorithm (negative values render as `-` followed by the positive
rendering). -/
def jsToFixed2 : Option ℚ → String
  | none => "NaN"
  | some q => if q < 0 then "-" ++ toFixed2Nonneg (-q) else toFixed2Nonneg q

/-- Word character of the regex `\b`/`\B` classes. -/
def isWordChar (c : Char) : Bool := c.isAlphanum || c = '_'

/-- Helper for `commaInsert`: walks the string remembering the previous
character `p`; a comma is inserted before the current position exactly when
the position is a non-boundary (`\B`, i.e. the previous character is a word
character, the current one being a digit) and the maximal digit run starting
here has length a positive multiple of 3 — which is precisely when the
lookahead `(\d{3})+(?!\d)` matches. -/
def commaInsertAux : Char → List Char → List Char
  | _, [] => []
  | p, c :: rest =>
      let r := ((c :: rest).takeWhile Char.isDigit).length
      if isWordChar p ∧ 3 ≤ r ∧ r % 3 = 0 then
        ',' :: c :: commaInsertAux c rest
      else
        c :: commaInsertAux c rest

/-- Model of `s.replace(/\B(?=(\d{3})+(?!\d))/g, ',')`: insert thousands separators. -/
def commaInsert (s : String) : String :=
  match s.toList with
  | [] => ""
  | c :: rest => String.mk (c :: commaInsertAux c rest)

/-- One FBT checkbox: its DOM id, its parent label's text content, and its
checked state. -/
structure FbtBox where
  id : String
  label : String
  checked : Bool
deriving DecidableEq, Repr

/-- Inline style of one `.fbt-product` visual. -/
structure ProductStyle where
  opacity : String
  filter : String
  transition : String
deriving DecidableEq, Repr

/-- Body of the `checkboxes.forEach` accumulation loop of `updateFBT`:
checked boxes add their price to `total` and bump `checkedCount`. -/
def fbtStep (acc : Option ℚ × ℕ) (cb : FbtBox) : Option ℚ × ℕ :=
  if cb.checked then (jsAdd acc.1 (extractPrice cb.label), acc.2 + 1) else acc

/-- The `(total, checkedCount)` pair computed by `updateFBT`'s loop. -/
def fbtTotals (items : List FbtBox) : Option ℚ × ℕ :=
  items.foldl fbtStep (some 0, 0)

/-- The DOM state written by one run of `updateFBT()`. -/
structure FbtView where
  products : List ProductStyle
  plusOpacities : List String
  totalText : String
  btnText : String
  btnDisabled : Bool
  btnOpacity : String
  btnCursor : String
deriving DecidableEq, Repr

/-- Product style written for a checkbox in the given checked state. -/
def fbtProductStyle (isChecked : Bool) : ProductStyle :=
  if isChecked then ⟨"1", "", "opacity 0.3s ease, filter 0.3s ease"⟩
  else ⟨"0.4", "grayscale(100%)", "opacity 0.3s ease, filter 0.3s ease"⟩

/-- Model of `updateFBT()`: recompute the total and checked count, restyle the product
visuals and plus signs, write the formatted total, and set the add-to-cart
button's text, disabled flag and styles. -/
def updateFBT (items : List FbtBox) (products : List ProductStyle) (plusCount : ℕ) : FbtView :=
  let totals := fbtTotals items
  let checkedCount := totals.2
  { products := idxMap products fun i p =>
      match items[i]? with
      | some cb => fbtProductStyle cb.checked
      | none => p
    plusOpacities := (List.range plusCount).map fun i =>
      let leftChecked := match items[i]? with | some cb => cb.checked | none => false
      let rightChecked := match items[i + 1]? with | some cb => cb.checked | none => false
      if leftChecked && rightChecked then "1" else "0.3"
    totalText := "$" ++ commaInsert (jsToFixed2 totals.1)
    btnText :=
      if checkedCount = 0 then "Select items to add"
      else if checkedCount = items.length then "Add all " ++ toString items.length ++ " to Cart"
      else "Add " ++ toString checkedCount ++ " to Cart"
    btnDisabled := checkedCount == 0
    btnOpacity := if checkedCount = 0 then "0.5" else ""
    btnCursor := if checkedCount = 0 then "not-allowed" else "" }

/-- Specification-side checked count: the number of checked boxes. -/
def checkedCountSpec (items : List FbtBox) : ℕ :=
  (items.filter (·.checked)).length

/-- Specification-side total: the sum of the prices parsed from the labels of
exactly the checked checkboxes. -/
def sumCheckedSpec (items : List FbtBox) : ℚ :=
  ((items.filter (·.checked)).map fun cb => (extractPrice cb.label).getD 0).sum

theorem foldl_fbtStep_count (items : List FbtBox) :
    ∀ (t : Option ℚ) (c : ℕ), (items.foldl fbtStep (t, c)).2 = c + checkedCountSpec items := by
  induction items with
  | nil => intro t c; simp [checkedCountSpec]
  | cons cb rest ih =>
      intro t c
      rw [List.foldl_cons]
      by_cases hc : cb.checked
      · rw [show fbtStep (t, c) cb = (jsAdd t (extractPrice cb.label), c + 1) from by
          simp [fbtStep, hc]]
        rw [ih]
        simp [checkedCountSpec, List.filter_cons, hc]
        omega
      · rw [show fbtStep (t, c) cb = (t, c) from by simp [fbtStep, hc]]
        rw [ih]
        simp [checkedCountSpec, List.filter_cons, hc]

theorem foldl_fbtStep_total (items : List FbtBox) :
    ∀ (a : ℚ) (c : ℕ), (∀ cb ∈ items, (extractPrice cb.label).isSome) →
      (items.foldl fbtStep (some a, c)).1 = some (a + sumCheckedSpec items) := by
  induction items with
  | nil => intro a c _; simp [sumCheckedSpec]
  | cons cb rest ih =>
      intro a c h
      obtain ⟨p, hp⟩ := Option.isSome_iff_exists.mp (h cb (List.mem_cons_self _ _))
      have htl : ∀ x ∈ rest, (extractPrice x.label).isSome :=
        fun x hx => h x (List.mem_cons_of_mem _ hx)
      rw [List.foldl_cons]
      by_cases hc : cb.checked
      · rw [show fbtStep (some a, c) cb = (some (a + p), c + 1) from by
          simp [fbtStep, hc, hp, jsAdd]]
        rw [ih (a + p) (c + 1) htl]
        have hsum : sumCheckedSpec (cb :: rest) = p + sumCheckedSpec rest := by
          simp [sumCheckedSpec, List.filter_cons, hc, hp]
        rw [hsum]
        exact congrArg some (by ring)
      · rw [show fbtStep (some a, c) cb = (some a, c) from by simp [fbtStep, hc]]
        rw [ih a c htl]
        have hsum : sumCheckedSpec (cb :: rest) = sumCheckedSpec rest := by
          simp [sumCheckedSpec, List.filter_cons, hc]
        rw [hsum]

theorem digitChar_isDigit (m : ℕ) (hm : m < 10) : (Nat.digitChar m).isDigit = true := by
  interval_cases m <;> decide

theorem toDigitsCore_head (fuel : ℕ) : ∀ (n : ℕ) (ds : List Char), 0 < fuel →
    ∃ m rest, Nat.toDigitsCore 10 fuel n ds = Nat.digitChar m :: rest ∧ m < 10 := by
  induction fuel with
  | zero => intro n ds h; omega
  | succ f ih =>
      intro n ds _
      simp only [Nat.toDigitsCore]
      by_cases h : n / 10 = 0
      · exact ⟨n % 10, ds, by rw [if_pos h], Nat.mod_lt _ (by omega)⟩
      · rcases Nat.eq_zero_or_pos f with rfl | hf
        · exact ⟨n % 10, ds, by rw [if_neg h]; rfl, Nat.mod_lt _ (by omega)⟩
        · obtain ⟨m, rest, heq, hm⟩ := ih (n / 10) (Nat.digitChar (n % 10) :: ds) hf
          exact ⟨m, rest, by rw [if_neg h]; exact heq, hm⟩

theorem natToString_head (n : ℕ) :
    ∃ c rest, (toString n).data = c :: rest ∧ c.isDigit = true := by
  obtain ⟨m, rest, heq, hm⟩ := toDigitsCore_head (n + 1) n [] (by omega)
  refine ⟨Nat.digitChar m, rest, ?_, digitChar_isDigit m hm⟩
  show Nat.toDigits 10 n = Nat.digitChar m :: rest
  exact heq

theorem select_ne_addall (x : String) :
    "Select items to add" ≠ "Add all " ++ x ++ " to Cart" := by
  intro h
  have h0 := congrArg (fun s => s.data[0]?) h
  simp only [String.data_append] at h0
  have hl : ("Select items to add".data)[0]? = some 'S' := by decide
  have hr : ("Add all ".data ++ x.data ++ " to Cart".data)[0]? = some 'A' := by
    show (['A', 'd', 'd', ' ', 'a', 'l', 'l', ' '] ++ x.data ++ " to Cart".data)[0]? = some 'A'
    simp
  rw [hl, hr] at h0
  injection h0 with h1
  exact absurd h1 (by decide)

theorem addk_ne_addall (k n : ℕ) :
    "Add " ++ toString k ++ " to Cart" ≠ "Add all " ++ toString n ++ " to Cart" := by
  intro h
  obtain ⟨c, rest, hk, hcd⟩ := natToString_head k
  have h4 := congrArg (fun s => s.data[4]?) h
  simp only [String.data_append] at h4
  rw [hk] at h4
  have hl : ("Add ".data ++ (c :: rest) ++ " to Cart".data)[4]? = some c := by
    show (['A', 'd', 'd', ' '] ++ (c :: rest) ++ " to Cart".data)[4]? = some c
    simp
  have hr : ("Add all ".data ++ (toString n).data ++ " to Cart".data)[4]? = some 'a' := by
    show (['A', 'd', 'd', ' ', 'a', 'l', 'l', ' '] ++ (toString n).data ++ " to Cart".data)[4]? = some 'a'
    simp
  rw [hl, hr] at h4
  injection h4 with h5
  rw [h5] at hcd
  exact absurd hcd (by decide)

-- ===========================================================================
-- Claim C1: the "frequently bought together" price calculator is correct
-- ===========================================================================

/-- Claim C1: For every configuration of the FBT checkboxes, `updateFBT` sets
the displayed total to the sum of the prices parsed from the labels of
exactly the checked checkboxes (a label with no $-amount contributes 0),
formatted with two decimals and thousands separators; and the add-to-cart
button is disabled with text "Select items to add" iff zero boxes are
checked, reads "Add all N to Cart" iff all N are checked, and
"Add k to Cart" otherwise.  (The hypothesis says each label's price parse is
a number — true of the page's `"Product Name - $XX.XX"` labels; a label with
no $-amount parses to `some 0`.) -/
theorem fbt_calculator_correct (items : List FbtBox) (products : List ProductStyle)
    (plusCount : ℕ) (hne : 0 < items.length)
    (hsome : ∀ cb ∈ items, (extractPrice cb.label).isSome) :
    ((updateFBT items products plusCount).totalText =
      "$" ++ commaInsert (jsToFixed2 (some (sumCheckedSpec items)))) ∧
    (((updateFBT items products plusCount).btnDisabled = true ∧
      (updateFBT items products plusCount).btnText = "Select items to add")
      ↔ checkedCountSpec items = 0) ∧
    ((updateFBT items products plusCount).btnText =
        "Add all " ++ toString items.length ++ " to Cart"
      ↔ checkedCountSpec items = items.length) ∧
    (checkedCountSpec items ≠ 0 → checkedCountSpec items ≠ items.length →
      (updateFBT items products plusCount).btnText =
        "Add " ++ toString (checkedCountSpec items) ++ " to Cart") ∧
    (∀ label : String, fbtMatch label.toList = none → extractPrice label = some 0) := by
  have hcount : (fbtTotals items).2 = checkedCountSpec items := by
    rw [fbtTotals, foldl_fbtStep_count]
    omega
  have htotal : (fbtTotals items).1 = some (sumCheckedSpec items) := by
    rw [fbtTotals, foldl_fbtStep_total items 0 0 hsome, zero_add]
  refine ⟨?_, ?_, ?_, ?_, ?_⟩
  · simp only [updateFBT]
    rw [htotal]
  · constructor
    · rintro ⟨hdis, -⟩
      simp only [updateFBT] at hdis
      rw [hcount] at hdis
      simpa using hdis
    · intro h0
      simp only [updateFBT]
      rw [hcount, h0]
      exact ⟨rfl, rfl⟩
  · constructor
    · intro htext
      simp only [updateFBT] at htext
      rw [hcount] at htext
      by_cases h0 : checkedCountSpec items = 0
      · rw [if_pos h0] at htext
        exact absurd htext (select_ne_addall _)
      · rw [if_neg h0] at htext
        by_cases hN : checkedCountSpec items = items.length
        · exact hN
        · rw [if_neg hN] at htext
          exact absurd htext (addk_ne_addall _ _)
    · intro hN
      simp only [updateFBT]
      rw [hcount, hN, if_neg (by omega), if_pos rfl]
  · intro h0 hN
    simp only [updateFBT]
    rw [hcount, if_neg h0, if_neg hN]
  · intro label hnm
    unfold extractPrice
    rw [hnm]

/-- Witness for C1: three concrete boxes (two checked, one unchecked with no
price in its label); the displayed total is the formatted sum of the checked
prices. -/
theorem fbt_calculator_correct_witness :
    (0 < ([⟨"cb1", "SonicWall TZ280W - $649.99", true⟩,
           ⟨"cb2", "Support Bundle - $1,350.00", true⟩,
           ⟨"cb3", "Patch Cable", false⟩] : List FbtBox).length) ∧
    (updateFBT [⟨"cb1", "SonicWall TZ280W - $649.99", true⟩,
                ⟨"cb2", "Support Bundle - $1,350.00", true⟩,
                ⟨"cb3", "Patch Cable", false⟩] [] 2).totalText =
      "$" ++ commaInsert (jsToFixed2 (some (sumCheckedSpec
        [⟨"cb1", "SonicWall TZ280W - $649.99", true⟩,
         ⟨"cb2", "Support Bundle - $1,350.00", true⟩,
         ⟨"cb3", "Patch Cable", false⟩]))) := by
  refine ⟨by decide, ?_⟩
  exact (fbt_calculator_correct
    [⟨"cb1", "SonicWall TZ280W - $649.99", true⟩,
     ⟨"cb2", "Support Bundle - $1,350.00", true⟩,
     ⟨"cb3", "Patch Cable", false⟩] [] 2 (by decide) (by decide)).1

-- ===========================================================================
-- INIT-TIME EFFECT MODEL (script.ts, the init* functions and cleanup)
-- ===========================================================================

/-- An observable init-time action of the script: a DOM mutation, a listener
or observer registration, or a timer.  Each `init*` function is modelled as a
pure function from its DOM query results (and the environment values it
reads) to the list of effects it performs, in order.  An empty list means the
function was a no-op. -/
inductive Effect where
  | setAttr (target attr value : String) : Effect
  | addListener (target event : String) : Effect
  | addClass (target cls : String) : Effect
  | removeClass (target cls : String) : Effect
  | setStyle (target prop value : String) : Effect
  | setCssText (target : String) : Effect
  | setText (target value : String) : Effect
  | setDisabled (target : String) (value : Bool) : Effect
  | createEl (desc : String) : Effect
  | appendChild (parent child : String) : Effect
  | observe (target : String) : Effect
  | pushObserver : Effect
  | timeoutE (delayMs : ℤ) (desc : String) : Effect
  | intervalE (delayMs : ℤ) (desc : String) : Effect
  | clearIntervalE : Effect
  | disconnectE (target : String) : Effect
  | rafE (desc : String) : Effect
deriving DecidableEq, Repr

/-- A `.brand-nav__tab` as queried at init time: its id and whether it
already carries the active class. -/
structure TabInfo where
  id : String
  active : Bool
deriving DecidableEq, Repr

/-- The clearing pass run over every tab by the scroll observer and by
`setInitialActiveTab`. -/
def clearTabFx (t : TabInfo) : List Effect :=
  [Effect.removeClass t.id "brand-nav__tab--active",
   Effect.setAttr t.id "aria-selected" "false",
   Effect.setAttr t.id "tabindex" "-1"]

/-- Model of `setInitialActiveTab()`: when the page loads scrolled (`scrollY > 100`)
and a most-visible section with a corresponding tab exists (`foundTab`),
clear every tab and activate that one; otherwise do nothing. -/
def setInitialActiveTabFx (tabs : List TabInfo) (scrollY : ℤ) (foundTab : Option String) :
    List Effect :=
  if 100 < scrollY then
    match foundTab with
    | some tid =>
        (tabs.map clearTabFx).flatten ++
        [Effect.addClass tid "brand-nav__tab--active",
         Effect.setAttr tid "aria-selected" "true",
         Effect.setAttr tid "tabindex" "0"]
    | none => []
  else []

/-- Effects of `initTabNavigation()` at init time. -/
def initTabNavigation (tabs : List TabInfo) (sections : List String)
    (tabContainer : Option String) (scrollY : ℤ) (foundTab : Option String) : List Effect :=
  if tabs.isEmpty then []
  else
    (match tabContainer with
     | some c => [Effect.setAttr c "role" "tablist"]
     | none => []) ++
    (idxMap tabs fun i t =>
      [Effect.setAttr t.id "role" "tab",
       Effect.setAttr t.id "tabindex"
         (if t.active || (i == 0 && !(tabs.any (·.active))) then "0" else "-1"),
       Effect.addListener t.id "click",
       Effect.addListener t.id "keydown"]).flatten ++
    (sections.map Effect.observe) ++
    [Effect.pushObserver] ++
    setInitialActiveTabFx tabs scrollY foundTab ++
    [Effect.timeoutE 100 "setInitialActiveTab"]

/-- One `.brand-nav__tab-wrapper` with its dropdown tab and dropdown links. -/
structure DropdownWrapper where
  tab : Option String
  dropdown : Option (String × List String)
deriving DecidableEq, Repr

/-- Per-wrapper body of `initDropdownNavigation`. -/
def initDropdownWrapperFx (w : DropdownWrapper) : List Effect :=
  match w.tab, w.dropdown with
  | some t, some d =>
      [Effect.setAttr t "aria-haspopup" "true",
       Effect.setAttr t "aria-expanded" "false",
       Effect.addListener t "click",
       Effect.addListener t "keydown"] ++
      (d.2.map fun l => [Effect.addListener l "keydown", Effect.addListener l "click"]).flatten
  | _, _ => []

/-- Effects of `initDropdownNavigation()` at init time. -/
def initDropdownNavigation (wrappers : List DropdownWrapper) : List Effect :=
  if wrappers.isEmpty then []
  else
    (wrappers.map initDropdownWrapperFx).flatten ++
    [Effect.addListener "document" "click", Effect.addListener "document" "keydown"]

/-- Query results for one toggle config of `initProductToggles`. -/
structure ToggleEls where
  button : Option String
  container : Option String
deriving DecidableEq, Repr

/-- Per-config body of `initProductToggles`. -/
def initToggleConfigFx (containerId : String) (e : ToggleEls) : List Effect :=
  match e.button, e.container with
  | some b, some _ =>
      [Effect.setAttr b "aria-expanded" "false",
       Effect.setAttr b "aria-controls" containerId,
       Effect.addListener b "click"]
  | _, _ => []

/-- Effects of `initProductToggles()` at init time (configs `tz-see-more`/`tz-products`
and `nsa-see-more`/`nsa-products`). -/
def initProductToggles (tz nsa : ToggleEls) : List Effect :=
  initToggleConfigFx "tz-products" tz ++ initToggleConfigFx "nsa-products" nsa

/-- Effects of `initScrollAnimations()` at init time. -/
def initScrollAnimations (animatedElements : List String) (prefersReducedMotion : Bool) :
    List Effect :=
  if animatedElements.isEmpty then []
  else if prefersReducedMotion then
    (animatedElements.map fun e =>
      [Effect.setStyle e "opacity" "1", Effect.setStyle e "transform" "none"]).flatten
  else
    (animatedElements.map fun e => Effect.addClass e "fade-in-up") ++
    [Effect.rafE "gridAwareStagger"] ++
    (animatedElements.map Effect.observe) ++
    [Effect.pushObserver] ++
    [Effect.rafE "initialViewportCheck"]

/-- Effects of `applySticky()` as an effect trace. -/
def applyStickyFx (brandHeader : String) (brandHeaderHeight : ℤ) : List Effect :=
  [Effect.addClass brandHeader "brand-header--sticky",
   Effect.setStyle brandHeader "position" "fixed",
   Effect.setStyle brandHeader "top" "0",
   Effect.setStyle brandHeader "left" "0",
   Effect.setStyle brandHeader "width" "100%",
   Effect.setStyle brandHeader "zIndex" "999",
   Effect.setStyle brandHeader "boxShadow" "0 2px 8px rgba(0,0,0,0.15)",
   Effect.setStyle "body" "paddingTop" (toString brandHeaderHeight ++ "px")]

/-- Effects of `initStickyHeader()` at init time. -/
def initStickyHeader (brandHeader amazonHeader : Option String)
    (scrollY stickyThreshold brandHeaderHeight : ℤ) : List Effect :=
  match brandHeader, amazonHeader with
  | some bh, some _ =>
      [Effect.addListener "window" "scroll", Effect.addListener "window" "resize"] ++
      (if stickyThreshold < scrollY then applyStickyFx bh brandHeaderHeight else [])
  | _, _ => []

/-- Effects of `initBackToTop()` at init time. -/
def initBackToTop (backToTopLink : Option String) : List Effect :=
  match backToTopLink with
  | some l => [Effect.addListener l "click"]
  | none => []

/-- Effects of `initCartCounter()` at init time. -/
def initCartCounter (cartCount : Option String) (optionButtons : List String) : List Effect :=
  match cartCount with
  | none => []
  | some cc =>
      if optionButtons.isEmpty then []
      else
        [Effect.setAttr cc "aria-live" "polite",
         Effect.setAttr cc "aria-atomic" "true"] ++
        optionButtons.map (Effect.addListener · "click")

/-- Effects of `resetInterval()` as an effect trace. -/
def resetIntervalFx (intervalActive prefersReducedMotion : Bool) : List Effect :=
  (if intervalActive then [Effect.clearIntervalE] else []) ++
  (if !prefersReducedMotion then [Effect.intervalE 5000 "nextTestimonial"] else [])

/-- Effects of `initTestimonialCarousel()` at init time. -/
def initTestimonialCarousel (dots : List String) (testimonialSection : Option String)
    (dotsContainer : Option String) (intervalActive prefersReducedMotion : Bool) : List Effect :=
  if dots.isEmpty then []
  else
    (match dotsContainer with
     | some dc => [Effect.setAttr dc "role" "tablist",
                   Effect.setAttr dc "aria-label" "Testimonial navigation"]
     | none => []) ++
    (idxMap dots fun i d =>
      [Effect.setAttr d "role" "tab",
       Effect.setAttr d "aria-label" ("Show testimonial " ++ toString (i + 1)),
       Effect.setAttr d "tabindex" (if i = 0 then "0" else "-1")]).flatten ++
    (dots.map fun d => [Effect.addListener d "click", Effect.addListener d "keydown"]).flatten ++
    (match testimonialSection with
     | some ts => [Effect.addListener ts "touchstart", Effect.addListener ts "touchend",
                   Effect.addListener ts "mouseenter", Effect.addListener ts "mouseleave"]
     | none => []) ++
    resetIntervalFx intervalActive prefersReducedMotion

/-- Effects of `initVideoThumbnails()` at init time. -/
def initVideoThumbnails (thumbnails : List String) (mainVideoContainer : Option String)
    (videoWrapper : Option String) : List Effect :=
  if thumbnails.isEmpty then []
  else
    match mainVideoContainer with
    | none => []
    | some mv =>
        [Effect.createEl "video-loading",
         Effect.setAttr "video-loading" "aria-hidden" "true",
         Effect.setCssText "video-loading",
         Effect.setText "video-loading" "Loading video..."] ++
        (match videoWrapper with
         | some w => [Effect.setStyle w "position" "relative",
                      Effect.appendChild w "video-loading"]
         | none => []) ++
        [Effect.addListener mv "load"] ++
        (idxMap thumbnails fun i t =>
          [Effect.setAttr t "role" "button",
           Effect.setAttr t "tabindex" "0",
           Effect.setAttr t "aria-label" ("Play video " ++ toString (i + 1)),
           Effect.addListener t "click",
           Effect.addListener t "keydown"]).flatten

/-- The hardcoded category mapping of `initCategoryTiles` (index, section,
display name). -/
def categoryMapping : List (String × String) :=
  [("firewalls", "TZ Series"), ("firewalls", "NSa Series"), ("firewalls", "NSsp Series"),
   ("cloud-edge", "Virtual Firewalls"), ("networking", "Switches"), ("cloud-edge", "Cloud Edge")]

/-- Effects of `initCategoryTiles()` at init time. -/
def initCategoryTiles (categoryTiles : List String) (prefersReducedMotion : Bool) : List Effect :=
  if categoryTiles.isEmpty then []
  else
    (idxMap categoryTiles fun i t =>
      [Effect.setAttr t "role" "button", Effect.setAttr t "tabindex" "0"] ++
      (match categoryMapping[i]? with
       | some m => [Effect.setAttr t "aria-label" ("View " ++ m.2 ++ " products")]
       | none => []) ++
      (if !prefersReducedMotion then
        [Effect.setStyle t "transition"
          "transform 0.3s cubic-bezier(0.4, 0, 0.2, 1), box-shadow 0.3s cubic-bezier(0.4, 0, 0.2, 1)"]
       else []) ++
      [Effect.addListener t "click", Effect.addListener t "keydown"]).flatten

/-- Effects of `initMobileNavScrollIndicators()` at init time. -/
def initMobileNavScrollIndicators (brandNav navContainer : Option String) : List Effect :=
  match brandNav with
  | none => []
  | some bn =>
      match navContainer with
      | none => []
      | some nc =>
          [Effect.createEl "nav-scroll-indicator--left",
           Effect.setAttr "nav-scroll-indicator--left" "aria-hidden" "true",
           Effect.setCssText "nav-scroll-indicator--left",
           Effect.createEl "nav-scroll-indicator--right",
           Effect.setAttr "nav-scroll-indicator--right" "aria-hidden" "true",
           Effect.setCssText "nav-scroll-indicator--right",
           Effect.setStyle bn "position" "relative",
           Effect.appendChild bn "nav-scroll-indicator--left",
           Effect.appendChild bn "nav-scroll-indicator--right",
           Effect.addListener nc "scroll",
           Effect.addListener "window" "resize",
           Effect.rafE "updateScrollIndicators"]

/-- An `img` element as queried by `initImageErrorHandling`. -/
structure ImageInfo where
  id : String
  complete : Bool
  naturalHeightZero : Bool
deriving DecidableEq, Repr

/-- Effects of `initImageErrorHandling()` at init time: skip already-loaded images,
attach an error listener to the rest. -/
def initImageErrorHandling (images : List ImageInfo) : List Effect :=
  (images.map fun im =>
    if im.complete && !im.naturalHeightZero then []
    else [Effect.addListener im.id "error"]).flatten

/-- Effects of `initLazyLoading()` at init time: images after the first four get
`loading="lazy"`. -/
def initLazyLoading (images : List String) : List Effect :=
  (idxMap images fun i im =>
    if 3 < i then [Effect.setAttr im "loading" "lazy"] else []).flatten

/-- Effects of `initButtonHoverPolish()` at init time; each button is paired with its
computed `transition` value. -/
def initButtonHoverPolish (prefersReducedMotion : Bool) (buttons : List (String × String)) :
    List Effect :=
  if prefersReducedMotion then []
  else
    (buttons.map fun b =>
      if b.2 ≠ "" && b.2 ≠ "none" && b.2 ≠ "all 0s ease 0s" then []
      else [Effect.setStyle b.1 "transition"
        "opacity 0.2s cubic-bezier(0.4, 0, 0.2, 1), box-shadow 0.2s cubic-bezier(0.4, 0, 0.2, 1), background-color 0.2s cubic-bezier(0.4, 0, 0.2, 1), color 0.2s cubic-bezier(0.4, 0, 0.2, 1), border-color 0.2s cubic-bezier(0.4, 0, 0.2, 1)"]).flatten

/-- Effects of `initButtonRippleEffect()` at init time. -/
def initButtonRippleEffect (prefersReducedMotion : Bool) (buttons : List String)
    (rippleStylesPresent : Bool) : List Effect :=
  if prefersReducedMotion then []
  else if buttons.isEmpty then []
  else
    buttons.map (Effect.addListener · "click") ++
    (if !rippleStylesPresent then
      [Effect.createEl "ripple-styles", Effect.appendChild "head" "ripple-styles"]
     else [])

/-- Effects of `initHeroVideo()` at init time. -/
def initHeroVideo (video : Option String) : List Effect :=
  match video with
  | none => []
  | some _ =>
      [Effect.timeoutE 3000 "loadAndPlay",
       Effect.addListener "window" "scroll",
       Effect.addListener "window" "mousemove",
       Effect.addListener "window" "touchstart",
       Effect.addListener "window" "keydown"]

/-- Effects of `initComparisonTable()` at init time; `rows` holds the cell ids of each
`tr`, `lastRowButtons` the `.btn--amazon` ids of the last tbody row (when
that row exists). -/
def initComparisonTable (table thead tbody : Option String)
    (rows : List (List String)) (wrapper : Option String)
    (lastRowButtons : Option (List String)) : List Effect :=
  match table with
  | none => []
  | some _ =>
      match thead, tbody with
      | some th, some _ =>
          (rows.map fun row =>
            (idxMap row fun colIndex cell =>
              if colIndex = 0 then []
              else [Effect.addListener cell "mouseenter",
                    Effect.addListener cell "mouseleave"]).flatten).flatten ++
          (match wrapper with
           | some w => [Effect.addListener w "scroll",
                        Effect.setStyle th "position" "sticky",
                        Effect.setStyle th "top" "0",
                        Effect.setStyle th "zIndex" "2"]
           | none => []) ++
          (match lastRowButtons with
           | none => []
           | some btns =>
               (idxMap btns fun i b =>
                 if i < 4 then [Effect.addListener b "click"] else []).flatten)
      | _, _ => []

/-- Effects of `updateFBT()` as an effect trace over the queried products, plus signs,
total-price element and button. -/
def updateFBTFx (items : List FbtBox) (products : List String) (plusSigns : List String)
    (totalPriceEl addToCartBtn : String) : List Effect :=
  let view := updateFBT items [] plusSigns.length
  (idxMap items fun i cb =>
    match products[i]? with
    | some p =>
        let st := fbtProductStyle cb.checked
        [Effect.setStyle p "opacity" st.opacity,
         Effect.setStyle p "filter" st.filter,
         Effect.setStyle p "transition" st.transition]
    | none => []).flatten ++
  (idxMap plusSigns fun i ps =>
    [Effect.setStyle ps "opacity" (view.plusOpacities.getD i "0.3")]).flatten ++
  [Effect.setText totalPriceEl view.totalText] ++
  [Effect.setText addToCartBtn view.btnText,
   Effect.setDisabled addToCartBtn view.btnDisabled,
   Effect.setStyle addToCartBtn "opacity" view.btnOpacity,
   Effect.setStyle addToCartBtn "cursor" view.btnCursor]

/-- Effects of `initFrequentlyBoughtTogether()` at init time. -/
def initFrequentlyBoughtTogether (container : Option String) (checkboxes : List FbtBox)
    (products : List String) (totalPrice addToCartBtn : Option String)
    (plusSigns : List String) : List Effect :=
  match container with
  | none => []
  | some _ =>
      if checkboxes.isEmpty then []
      else
        match totalPrice, addToCartBtn with
        | some tp, some btn =>
            checkboxes.map (fun cb => Effect.addListener cb.id "change") ++
            updateFBTFx checkboxes products plusSigns tp btn
        | _, _ => []

/-- Effects of `initProductCardEnhancements()` at init time; each card is paired with
its optional image element. -/
def initProductCardEnhancements (prefersReducedMotion : Bool)
    (cards : List (String × Option String)) : List Effect :=
  if prefersReducedMotion then []
  else if cards.isEmpty then []
  else
    (cards.map fun c =>
      match c.2 with
      | some _ => [Effect.addListener c.1 "mouseenter", Effect.addListener c.1 "mouseleave"]
      | none => []).flatten

/-- Model of `cleanup()`: clear the testimonial auto-advance interval if one is set,
then disconnect every observer in the `observers` array. -/
def cleanupFx (intervalActive : Bool) (observers : List String) : List Effect :=
  (if intervalActive then [Effect.clearIntervalE] else []) ++
  observers.map Effect.disconnectE

-- ===========================================================================
-- Claim C4: element-not-found means no-op
-- ===========================================================================

/-- Claim C4: For every `init*` function invoked from `init()`: if the DOM
elements the function requires are absent (its initial queries return `null`
or an empty list), the function returns early and performs no effect at all —
no DOM mutation, no module-level state change, no listener, observer or timer
registration.  (For `initImageErrorHandling` and `initLazyLoading` there is
no explicit guard, but an empty query list makes the `forEach` body run zero
times, which is the same no-op.) -/
theorem init_absent_noop :
    (∀ sections tabContainer scrollY foundTab,
      initTabNavigation [] sections tabContainer scrollY foundTab = []) ∧
    (initDropdownNavigation [] = []) ∧
    (∀ b c, initProductToggles ⟨none, b⟩ ⟨none, c⟩ = []) ∧
    (∀ b c, initProductToggles ⟨b, none⟩ ⟨c, none⟩ = []) ∧
    (∀ prm, initScrollAnimations [] prm = []) ∧
    (∀ a y t h, initStickyHeader none a y t h = []) ∧
    (∀ b y t h, initStickyHeader b none y t h = []) ∧
    (initBackToTop none = []) ∧
    (∀ btns, initCartCounter none btns = []) ∧
    (∀ cc, initCartCounter cc [] = []) ∧
    (∀ sec dc ia prm, initTestimonialCarousel [] sec dc ia prm = []) ∧
    (∀ mv w, initVideoThumbnails [] mv w = []) ∧
    (∀ ths w, initVideoThumbnails ths none w = []) ∧
    (∀ prm, initCategoryTiles [] prm = []) ∧
    (∀ nc, initMobileNavScrollIndicators none nc = []) ∧
    (∀ bn, initMobileNavScrollIndicators bn none = []) ∧
    (initImageErrorHandling [] = []) ∧
    (initLazyLoading [] = []) ∧
    (∀ prm, initButtonHoverPolish prm [] = []) ∧
    (∀ prm sp, initButtonRippleEffect prm [] sp = []) ∧
    (initHeroVideo none = []) ∧
    (∀ th tb rows w lrb, initComparisonTable none th tb rows w lrb = []) ∧
    (∀ t tb rows w lrb, initComparisonTable t none tb rows w lrb = []) ∧
    (∀ t th rows w lrb, initComparisonTable t th none rows w lrb = []) ∧
    (∀ cbs ps tp btn pls, initFrequentlyBoughtTogether none cbs ps tp btn pls = []) ∧
    (∀ c ps tp btn pls, initFrequentlyBoughtTogether c [] ps tp btn pls = []) ∧
    (∀ c cbs ps btn pls, initFrequentlyBoughtTogether c cbs ps none btn pls = []) ∧
    (∀ c cbs ps tp pls, initFrequentlyBoughtTogether c cbs ps tp none pls = []) ∧
    (∀ prm, initProductCardEnhancements prm [] = []) := by
  refine ⟨fun _ _ _ _ => rfl, rfl, ?_, ?_, fun _ => rfl, ?_, ?_, rfl, fun _ => rfl, ?_,
    fun _ _ _ _ => rfl, fun _ _ => rfl, ?_, fun _ => rfl, fun _ => rfl, ?_, rfl, rfl,
    ?_, ?_, rfl, fun _ _ _ _ _ => rfl, ?_, ?_, fun _ _ _ _ _ => rfl, ?_, ?_, ?_, ?_⟩
  · intro b c; cases b <;> cases c <;> rfl
  · intro b c; cases b <;> cases c <;> rfl
  · intro a y t h; cases a <;> rfl
  · intro b y t h; cases b <;> rfl
  · intro cc; cases cc <;> rfl
  · intro ths w; cases ths <;> rfl
  · intro bn; cases bn <;> rfl
  · intro prm; cases prm <;> rfl
  · intro prm sp; cases prm <;> rfl
  · intro t tb rows w lrb; cases t <;> cases tb <;> rfl
  · intro t th rows w lrb; cases t <;> cases th <;> rfl
  · intro c ps tp btn pls; cases c <;> rfl
  · intro c cbs ps btn pls
    cases c with
    | none => rfl
    | some c =>
        cases cbs with
        | nil => rfl
        | cons a l => cases btn <;> rfl
  · intro c cbs ps tp pls
    cases c with
    | none => rfl
    | some c =>
        cases cbs with
        | nil => rfl
        | cons a l => cases tp <;> rfl
  · intro prm; cases prm <;> rfl


theorem not_mem_flatten_idxMap {β : Type} (l : List β) (f : ℕ → β → List Effect) (e : Effect)
    (h : ∀ i b, e ∉ f i b) : e ∉ (idxMap l f).flatten := by
  intro hmem
  rw [List.mem_flatten] at hmem
  obtain ⟨sub, hsub, hesub⟩ := hmem
  rw [idxMap, List.mem_map] at hsub
  obtain ⟨p, _, rfl⟩ := hsub
  exact h p.1 p.2 hesub

theorem not_mem_flatten_map {β : Type} (l : List β) (f : β → List Effect) (e : Effect)
    (h : ∀ b, e ∉ f b) : e ∉ (l.map f).flatten := by
  intro hmem
  rw [List.mem_flatten] at hmem
  obtain ⟨sub, hsub, hesub⟩ := hmem
  rw [List.mem_map] at hsub
  obtain ⟨b, _, rfl⟩ := hsub
  exact h b hesub

theorem not_mem_map_fx {β : Type} (l : List β) (f : β → Effect) (e : Effect)
    (h : ∀ b, f b ≠ e) : e ∉ l.map f := by
  intro hmem
  rw [List.mem_map] at hmem
  obtain ⟨b, _, hb⟩ := hmem
  exact h b hb

-- ===========================================================================
-- Claim C6: cleanup clears one interval and disconnects all observers
-- ===========================================================================

/-- Claim C6: Whenever `cleanup()` runs it clears the testimonial auto-advance
interval if one is set, and calls `disconnect` on every observer in the
`observers` array — and nothing else (every effect of `cleanup` is one of
those two kinds).  Only `initTabNavigation` and `initScrollAnimations` ever
push an observer into that array: each pushes exactly when its guard passes
(non-empty tab list; non-empty animated-element list without reduced motion),
and no other `init*` function invoked from `init()` ever performs a
`pushObserver` effect. -/
theorem cleanup_correct :
    (∀ (i : Bool) (obs : List String),
      (Effect.clearIntervalE ∈ cleanupFx i obs ↔ i = true)) ∧
    (∀ (i : Bool) (obs : List String) (d : String),
      (Effect.disconnectE d ∈ cleanupFx i obs ↔ d ∈ obs)) ∧
    (∀ (i : Bool) (obs : List String) (e : Effect), e ∈ cleanupFx i obs →
      e = Effect.clearIntervalE ∨ ∃ d, e = Effect.disconnectE d) ∧
    (∀ tabs sections tc sy ft, tabs ≠ [] →
      Effect.pushObserver ∈ initTabNavigation tabs sections tc sy ft) ∧
    (∀ els, els ≠ [] → Effect.pushObserver ∈ initScrollAnimations els false) ∧
    (∀ els, Effect.pushObserver ∉ initScrollAnimations els true) ∧
    (∀ ws, Effect.pushObserver ∉ initDropdownNavigation ws) ∧
    (∀ tz nsa, Effect.pushObserver ∉ initProductToggles tz nsa) ∧
    (∀ bh ah sy st hh, Effect.pushObserver ∉ initStickyHeader bh ah sy st hh) ∧
    (∀ l, Effect.pushObserver ∉ initBackToTop l) ∧
    (∀ cc btns, Effect.pushObserver ∉ initCartCounter cc btns) ∧
    (∀ dots sec dc ia prm, Effect.pushObserver ∉ initTestimonialCarousel dots sec dc ia prm) ∧
    (∀ ths mv w, Effect.pushObserver ∉ initVideoThumbnails ths mv w) ∧
    (∀ tiles prm, Effect.pushObserver ∉ initCategoryTiles tiles prm) ∧
    (∀ bn nc, Effect.pushObserver ∉ initMobileNavScrollIndicators bn nc) ∧
    (∀ imgs, Effect.pushObserver ∉ initImageErrorHandling imgs) ∧
    (∀ imgs, Effect.pushObserver ∉ initLazyLoading imgs) ∧
    (∀ prm btns, Effect.pushObserver ∉ initButtonHoverPolish prm btns) ∧
    (∀ prm btns sp, Effect.pushObserver ∉ initButtonRippleEffect prm btns sp) ∧
    (∀ v, Effect.pushObserver ∉ initHeroVideo v) ∧
    (∀ t th tb rows w lrb, Effect.pushObserver ∉ initComparisonTable t th tb rows w lrb) ∧
    (∀ c cbs ps tp btn pls, Effect.pushObserver ∉ initFrequentlyBoughtTogether c cbs ps tp btn pls) ∧
    (∀ prm cards, Effect.pushObserver ∉ initProductCardEnhancements prm cards) := by
  refine ⟨?_, ?_, ?_, ?_, ?_, ?_, ?_, ?_, ?_, ?_, ?_, ?_, ?_, ?_, ?_, ?_, ?_, ?_, ?_, ?_, ?_, ?_, ?_⟩
  · intro i obs; cases i <;> simp [cleanupFx]
  · intro i obs d; cases i <;> simp [cleanupFx]
  · intro i obs e he
    cases i <;> simp [cleanupFx] at he
    · obtain ⟨d, _, rfl⟩ := he
      exact Or.inr ⟨d, rfl⟩
    · rcases he with rfl | ⟨d, _, rfl⟩
      · exact Or.inl rfl
      · exact Or.inr ⟨d, rfl⟩
  · intro tabs sections tc sy ft h
    cases tabs with
    | nil => exact absurd rfl h
    | cons t ts => simp [initTabNavigation]
  · intro els h
    cases els with
    | nil => exact absurd rfl h
    | cons e es => simp [initScrollAnimations]
  · intro els
    cases els with
    | nil => simp [initScrollAnimations]
    | cons e es =>
        simp only [initScrollAnimations]
        rw [if_neg (by simp), if_pos trivial]
        exact not_mem_flatten_map _ _ _ (fun b => by simp)
  · intro ws
    cases ws with
    | nil => simp [initDropdownNavigation]
    | cons w ws' =>
        simp only [initDropdownNavigation, List.isEmpty_cons, Bool.false_eq_true, if_false]
        simp only [List.mem_append, not_or]
        refine ⟨?_, by simp⟩
        refine not_mem_flatten_map _ _ _ (fun b => ?_)
        rcases hbt : b.tab with _ | t <;> rcases hbd : b.dropdown with _ | d <;>
          simp [initDropdownWrapperFx, hbt, hbd]
  · intro tz nsa
    have hcfg : ∀ cid e, Effect.pushObserver ∉ initToggleConfigFx cid e := by
      intro cid e
      rcases h1 : e.button with _ | b <;> rcases h2 : e.container with _ | c <;>
        simp [initToggleConfigFx, h1, h2]
    simp only [initProductToggles, List.mem_append, not_or]
    exact ⟨hcfg _ _, hcfg _ _⟩
  · intro bh ah sy st hh
    cases bh with
    | none => cases ah <;> simp [initStickyHeader]
    | some b =>
        cases ah with
        | none => simp [initStickyHeader]
        | some a =>
            simp only [initStickyHeader, List.mem_append, not_or]
            refine ⟨by simp, ?_⟩
            split_ifs <;> simp [applyStickyFx]
  · intro l; cases l <;> simp [initBackToTop]
  · intro cc btns
    cases cc with
    | none => simp [initCartCounter]
    | some c =>
        cases btns with
        | nil => simp [initCartCounter]
        | cons b bs =>
            simp only [initCartCounter, List.isEmpty_cons, Bool.false_eq_true, if_false]
            simp only [List.mem_append, not_or]
            exact ⟨by simp, not_mem_map_fx _ _ _ (fun x => by simp)⟩
  · intro dots sec dc ia prm
    cases dots with
    | nil => simp [initTestimonialCarousel]
    | cons d ds =>
        simp only [initTestimonialCarousel, List.isEmpty_cons, Bool.false_eq_true, if_false]
        simp only [List.mem_append, not_or]
        refine ⟨⟨⟨⟨?_, ?_⟩, ?_⟩, ?_⟩, ?_⟩
        · cases dc <;> simp
        · exact not_mem_flatten_idxMap _ _ _ (fun i b => by simp)
        · exact not_mem_flatten_map _ _ _ (fun b => by simp)
        · cases sec <;> simp
        · simp only [resetIntervalFx, List.mem_append, not_or]
          constructor <;> split_ifs <;> simp
  · intro ths mv w
    cases ths with
    | nil => simp [initVideoThumbnails]
    | cons t ts =>
        cases mv with
        | none => simp [initVideoThumbnails]
        | some v =>
            simp only [initVideoThumbnails, List.isEmpty_cons, Bool.false_eq_true, if_false]
            simp only [List.mem_append, not_or]
            refine ⟨⟨⟨by simp, ?_⟩, by simp⟩, ?_⟩
            · cases w <;> simp
            · exact not_mem_flatten_idxMap _ _ _ (fun i b => by simp)
  · intro tiles prm
    cases tiles with
    | nil => simp [initCategoryTiles]
    | cons t ts =>
        simp only [initCategoryTiles, List.isEmpty_cons, Bool.false_eq_true, if_false]
        refine not_mem_flatten_idxMap _ _ _ (fun i b => ?_)
        intro hmem
        rcases hm : categoryMapping[i]? with _ | m <;> rw [hm] at hmem <;>
          split_ifs at hmem <;> simp at hmem
  · intro bn nc; cases bn <;> cases nc <;> simp [initMobileNavScrollIndicators]
  · intro imgs
    refine not_mem_flatten_map _ _ _ (fun im => ?_)
    split_ifs <;> simp
  · intro imgs
    refine not_mem_flatten_idxMap _ _ _ (fun i b => ?_)
    split_ifs <;> simp
  · intro prm btns
    cases prm with
    | true => simp [initButtonHoverPolish]
    | false =>
        simp only [initButtonHoverPolish, Bool.false_eq_true, if_false]
        refine not_mem_flatten_map _ _ _ (fun b => ?_)
        split_ifs <;> simp
  · intro prm btns sp
    cases prm with
    | true => simp [initButtonRippleEffect]
    | false =>
        cases btns with
        | nil => simp [initButtonRippleEffect]
        | cons b bs =>
            simp only [initButtonRippleEffect, Bool.false_eq_true, if_false, List.isEmpty_cons]
            simp only [List.mem_append, not_or]
            refine ⟨not_mem_map_fx _ _ _ (fun x => by simp), ?_⟩
            split_ifs <;> simp
  · intro v; cases v <;> simp [initHeroVideo]
  · intro t th tb rows w lrb
    cases t with
    | none => simp [initComparisonTable]
    | some t =>
        cases th with
        | none => cases tb <;> simp [initComparisonTable]
        | some th =>
        cases tb with
        | none => simp [initComparisonTable]
        | some tb =>
        simp only [initComparisonTable]
        simp only [List.mem_append, not_or]
        refine ⟨⟨?_, ?_⟩, ?_⟩
        · exact not_mem_flatten_map _ _ _ (fun row =>
            not_mem_flatten_idxMap _ _ _ (fun i b => by split_ifs <;> simp))
        · cases w <;> simp
        · cases lrb with
          | none => simp
          | some btns =>
              exact not_mem_flatten_idxMap _ _ _ (fun i b => by split_ifs <;> simp)
  · intro c cbs ps tp btn pls
    cases c with
    | none => simp [initFrequentlyBoughtTogether]
    | some c =>
        cases cbs with
        | nil => simp [initFrequentlyBoughtTogether]
        | cons cb cbs' =>
            cases tp with
            | none => simp [initFrequentlyBoughtTogether]
            | some tp' =>
            cases btn with
            | none => simp [initFrequentlyBoughtTogether]
            | some btn' =>
            simp only [initFrequentlyBoughtTogether, List.isEmpty_cons, Bool.false_eq_true,
              if_false]
            simp only [List.mem_append, not_or]
            refine ⟨not_mem_map_fx _ _ _ (fun x => by simp), ?_⟩
            simp only [updateFBTFx, List.mem_append, not_or]
            refine ⟨⟨⟨?_, ?_⟩, by simp⟩, by simp⟩
            · refine not_mem_flatten_idxMap _ _ _ (fun i b => ?_)
              intro hmem
              rcases hp : ps[i]? with _ | pr <;> rw [hp] at hmem <;> simp at hmem
            · exact not_mem_flatten_idxMap _ _ _ (fun i b => by simp)
  · intro prm cards
    cases prm with
    | true => simp [initProductCardEnhancements]
    | false =>
        cases cards with
        | nil => simp [initProductCardEnhancements]
        | cons c cs =>
            simp only [initProductCardEnhancements, Bool.false_eq_true, if_false,
              List.isEmpty_cons]
            refine not_mem_flatten_map _ _ _ (fun b => ?_)
            rcases hb : b.2 with _ | img <;> simp [hb]

/-- Witness for C6: a concrete cleanup run (interval set, two observers) and
a concrete non-empty tab list whose init pushes an observer. -/
theorem cleanup_correct_witness :
    (Effect.disconnectE "sectionObserver" ∈
      cleanupFx true ["sectionObserver", "scrollObserver"]) ∧
    Effect.pushObserver ∈ initTabNavigation [⟨"tab0", true⟩] [] none 0 none := by
  constructor
  · exact (cleanup_correct.2.1 true ["sectionObserver", "scrollObserver"]
      "sectionObserver").mpr (by decide)
  · exact cleanup_correct.2.2.2.1 [⟨"tab0", true⟩] [] none 0 none (by decide)
